import Mathlib

/-
Shallow embedding of the state-derivation engine of the
`extended_window_status` integration
(src/custom_components/extended_window_status/sensor.py).

The core is the method `ExtendedWindowStatus._async_update_state`, which
reads the latest snapshots of two input entities and derives a window
status by the active mode's decision table, plus the surrounding
lifecycle (`_async_state_changed`, `async_will_remove_from_hass`).

Modelling conventions:
- A host-platform state snapshot is `Option HAState` (`None` in Python is
  `none`); only the textual `state` field is read by the engine.
- The Python output `self._state` is a translated string or `None`; we
  model it symbolically as `DerivedState`, with Python `None` mapped to
  `DerivedState.unknown` and the result of the `self._translations.get`
  lookup mapped to the corresponding symbolic value (localized labels are
  a presentation concern outside the core).
- Python `float(...)` is modelled after CPython (3.11): the Unicode
  decimal-digit/whitespace transform applied to non-ASCII strings, ASCII
  whitespace stripping, optional sign, inf/infinity/nan, and PEP 515
  underscore separators. The parsed value is kept as an exact scaled
  decimal; the only observable effect of binary64 rounding on this
  program is the comparison of the stored float against zero, which is
  modelled exactly by the rounding threshold `2 ^ (-1075)` in
  `PyFloat.isZero`/`isPos`/`isNeg` (see their doc comments).
- The inner body of `_async_update_state` is `Except`-valued to model the
  surrounding `try/except Exception` handler faithfully; its translation
  never throws, and `updateState` applies the handler.
- Log calls are modelled as emitted `LogEntry` values.
-/

namespace ExtendedWindowStatus

/-- The `mode` configuration value: `MODE_ROTARY_TILT` or `MODE_BINARY_TILT`
from `const.py`, fixed at entity construction. -/
inductive Mode
  | rotaryTilt
  | binaryTilt
  deriving DecidableEq

/-- A host-platform entity state snapshot, as returned by
`hass.states.get`; the engine only reads its textual `state`. -/
structure HAState where
  state : String
  deriving DecidableEq

/-- The symbolic derived output. Python `self._state = None` is `unknown`;
the three translated labels are `closed`, `open_`, `tilted`. -/
inductive DerivedState
  | closed
  | open_
  | tilted
  | unknown
  deriving DecidableEq

/-- Severity of an emitted log line. -/
inductive LogLevel
  | debug
  | warning
  | error
  deriving DecidableEq

/-- One emitted log line. -/
structure LogEntry where
  level : LogLevel
  msg : String
  deriving DecidableEq

def errLog (m : String) : LogEntry := ⟨LogLevel.error, m⟩

def warnLog (m : String) : LogEntry := ⟨LogLevel.warning, m⟩

def dbgLog (m : String) : LogEntry := ⟨LogLevel.debug, m⟩

/-- A Python float value. `finite num exp10` denotes the exact rational
`num / 10 ^ exp10` (the denominator is always positive, so the sign and
zero tests used by the engine depend only on `num`); binary64 rounding is
not modelled, values are kept exact. -/
inductive PyFloat
  | finite (num : Int) (exp10 : Nat)
  | inf
  | negInf
  | nan
  deriving DecidableEq

/-- Python comparison `x == 0` on the float stored for the exact decimal
`n / 10 ^ e` (false for inf and nan). `float()` returns the correctly
rounded binary64 value (round to nearest, ties to even): every value with
absolute value at most `2 ^ (-1075)` — half the smallest subnormal, the
tie itself rounding to the even mantissa 0 — becomes positive or negative
zero, both of which compare equal to 0; every larger value keeps its
sign. So `x == 0` holds exactly when `|n| / 10 ^ e ≤ 2 ^ (-1075)`,
i.e. `|n| * 2 ^ 1075 ≤ 10 ^ e`. -/
def PyFloat.isZero : PyFloat → Bool
  | .finite n e => n.natAbs * 2 ^ 1075 ≤ 10 ^ e
  | _ => false

/-- Python comparison `x > 0` on the stored float (true for inf, false
for nan): positive exact value above the underflow threshold of
`PyFloat.isZero`. Overflow to +inf keeps `x > 0` true, so it needs no
separate case for finite representations. -/
def PyFloat.isPos : PyFloat → Bool
  | .finite n e => 0 < n && 10 ^ e < n.natAbs * 2 ^ 1075
  | .inf => true
  | _ => false

/-- Python comparison `x < 0` on the stored float (true for -inf, false
for nan): negative exact value of magnitude above the underflow threshold
of `PyFloat.isZero`. -/
def PyFloat.isNeg : PyFloat → Bool
  | .finite n e => n < 0 && 10 ^ e < n.natAbs * 2 ^ 1075
  | .negInf => true
  | _ => false

/-- Python unary negation on a float. -/
def PyFloat.neg : PyFloat → PyFloat
  | .finite n e => .finite (-n) e
  | .inf => .negInf
  | .negInf => .inf
  | .nan => .nan

/-- Value of a list of decimal digit characters. -/
def digitsVal (cs : List Char) : Nat :=
  cs.foldl (fun n c => n * 10 + (c.toNat - 48)) 0

/-- Ten to a natural power, as an integer. -/
def tenPow : Nat → Int
  | 0 => 1
  | n + 1 => 10 * tenPow n

/-- Continuation of a digit run in which each PEP 515 underscore
separator must be followed (and, by construction of the run, preceded)
by a digit. -/
def digitsUTail : List Char → Bool
  | [] => true
  | '_' :: c :: rest => c.isDigit && digitsUTail rest
  | ['_'] => false
  | c :: rest => c.isDigit && digitsUTail rest

/-- Nonempty digit run with optional single underscores between digits,
as accepted inside `float()` literals (PEP 515): it must start and end
with a digit and no two underscores may be adjacent. -/
def digitsU : List Char → Bool
  | [] => false
  | c :: rest => c.isDigit && digitsUTail rest

/-- Drop the underscore separators before reading the digits' value. -/
def stripUnd (cs : List Char) : List Char :=
  cs.filter (fun c => c != '_')

/-- Unsigned decimal mantissa, as numerator and decimal-fraction length:
underscore-separated digit runs with at most one decimal point, at least
one digit overall. -/
def parseDec (cs : List Char) : Option (Int × Nat) :=
  match cs.splitOn '.' with
  | [ip] =>
      if digitsU ip then some ((digitsVal (stripUnd ip) : Int), 0)
      else none
  | [ip, fp] =>
      if (ip.isEmpty || digitsU ip) && (fp.isEmpty || digitsU fp)
          && (!ip.isEmpty || !fp.isEmpty) then
        some ((digitsVal (stripUnd (ip ++ fp)) : Int), (stripUnd fp).length)
      else none
  | _ => none

/-- Optionally signed exponent digits (underscore separators allowed). -/
def parseExp (cs : List Char) : Option Int :=
  match cs with
  | '+' :: ds => if digitsU ds then some (digitsVal (stripUnd ds) : Int) else none
  | '-' :: ds => if digitsU ds then some (-(digitsVal (stripUnd ds) : Int)) else none
  | ds => if digitsU ds then some (digitsVal (stripUnd ds) : Int) else none

/-- Scale the exact value `n / 10 ^ e` by `10 ^ k`. -/
def applyExp10 (n : Int) (e : Nat) (k : Int) : PyFloat :=
  if (e : Int) ≤ k then .finite (n * tenPow (k - (e : Int)).toNat) 0
  else .finite n ((e : Int) - k).toNat

/-- Mantissa with optional `e`-exponent (input already lower-cased). -/
def parseDecExp (cs : List Char) : Option PyFloat :=
  match cs.splitOn 'e' with
  | [m] => (parseDec m).map fun p => .finite p.1 p.2
  | [m, ex] =>
      match parseDec m, parseExp ex with
      | some p, some ev => some (applyExp10 p.1 p.2 ev)
      | _, _ => none
  | _ => none

/-- Unsigned body of a Python float literal: `inf`, `infinity`, `nan`,
or a decimal with optional exponent (input already lower-cased). -/
def parseUnsignedBody (cs : List Char) : Option PyFloat :=
  if cs = ['i', 'n', 'f'] || cs = ['i', 'n', 'f', 'i', 'n', 'i', 't', 'y'] then
    some .inf
  else if cs = ['n', 'a', 'n'] then some .nan
  else parseDecExp cs

/-- Start code points of the runs of ten consecutive Unicode decimal
digits with values 0-9, generated from CPython 3.11's `unicodedata`
decimal property (the table behind `Py_UNICODE_TODECIMAL`). -/
def decDigitRunStarts : List Nat :=
  [0x30, 0x660, 0x6f0, 0x7c0, 0x966, 0x9e6, 0xa66, 0xae6, 0xb66, 0xbe6,
   0xc66, 0xce6, 0xd66, 0xde6, 0xe50, 0xed0, 0xf20, 0x1040, 0x1090,
   0x17e0, 0x1810, 0x1946, 0x19d0, 0x1a80, 0x1a90, 0x1b50, 0x1bb0,
   0x1c40, 0x1c50, 0xa620, 0xa8d0, 0xa900, 0xa9d0, 0xa9f0, 0xaa50,
   0xabf0, 0xff10, 0x104a0, 0x10d30, 0x11066, 0x110f0, 0x11136, 0x111d0,
   0x112f0, 0x11450, 0x114d0, 0x11650, 0x116c0, 0x11730, 0x118e0,
   0x11950, 0x11c50, 0x11d50, 0x11da0, 0x16a60, 0x16ac0, 0x16b50,
   0x1d7ce, 0x1d7d8, 0x1d7e2, 0x1d7ec, 0x1d7f6, 0x1e140, 0x1e2f0,
   0x1e950, 0x1fbf0]

/-- Decimal value of a Unicode decimal-digit character. -/
def uniDigit (c : Char) : Option Nat :=
  (decDigitRunStarts.find? (fun b => b ≤ c.toNat && c.toNat < b + 10)).map
    (fun b => c.toNat - b)

/-- Unicode whitespace code points at or above 127 (`Py_UNICODE_ISSPACE`,
generated from CPython 3.11's `str.isspace`; code points below 127 are
passed through unchanged by the transform, so only these matter). -/
def uniSpaceCodes : List Nat :=
  [0x85, 0xa0, 0x1680, 0x2000, 0x2001, 0x2002, 0x2003, 0x2004, 0x2005,
   0x2006, 0x2007, 0x2008, 0x2009, 0x200a, 0x2028, 0x2029, 0x202f,
   0x205f, 0x3000]

/-- One character of CPython's
`_PyUnicode_TransformDecimalAndSpaceToASCII`: code points below 127 pass
through, Unicode whitespace becomes a space, Unicode decimal digits
become ASCII digits, and everything else becomes `?` (which can never
parse). -/
def transformChar (c : Char) : Char :=
  if c.toNat < 127 then c
  else if uniSpaceCodes.contains c.toNat then ' '
  else
    match uniDigit c with
    | some d => Char.ofNat (48 + d)
    | none => '?'

/-- CPython applies the decimal-and-space transform only when the string
contains a code point at or above 128; a pure-ASCII string reaches the C
parser unchanged. -/
def transformDecimal (cs : List Char) : List Char :=
  if cs.all (fun c => c.toNat < 128) then cs else cs.map transformChar

/-- ASCII whitespace stripped around the number by the C-level float
parser (`Py_ISSPACE`): space, tab, newline, carriage return, vertical
tab, form feed. -/
def isCSpace (c : Char) : Bool :=
  c == ' ' || c == '\t' || c == '\n' || c == '\r' || c.val == 11 || c.val == 12

/-- Strip leading and trailing C whitespace from a character list. -/
def trimChars (cs : List Char) : List Char :=
  ((cs.dropWhile isCSpace).reverse.dropWhile isCSpace).reverse

/-- Model of Python `float(s)` on a string, after CPython 3.11: the
Unicode transform, whitespace stripping, case-insensitivity, optional
sign; `none` models a raised `ValueError`. -/
def pyFloat (s : String) : Option PyFloat :=
  match trimChars ((transformDecimal s.toList).map Char.toLower) with
  | '+' :: rest => parseUnsignedBody rest
  | '-' :: rest => (parseUnsignedBody rest).map PyFloat.neg
  | cs => parseUnsignedBody cs

/-- Body of `_async_update_state` inside the outer `try`, translated
line by line from sensor.py (lines 138-184). The result pairs the value
written to `self._state` with the log lines emitted; `Except.error` would
model an exception reaching the outer `except Exception` handler. -/
def updateBody (mode : Mode) (base_state second_state : Option HAState) :
    Except String (DerivedState × List LogEntry) :=
  match base_state, second_state with
  | none, _ | _, none => .ok (.unknown, [errLog "Missing state"])
  | some bs, some ss =>
    match mode with
    | .rotaryTilt =>
      let base_on := bs.state == "on"
      match pyFloat ss.state with
      | none => .ok (.unknown, [errLog "Invalid rotation value"])
      | some rotation =>
        if !base_on then .ok (.closed, [dbgLog "Updated state"])
        else if rotation.isZero then .ok (.open_, [dbgLog "Updated state"])
        else if rotation.isPos then .ok (.tilted, [dbgLog "Updated state"])
        else .ok (.unknown, [dbgLog "Updated state"])
    | .binaryTilt =>
      let first_on := bs.state == "on"
      let second_on := ss.state == "on"
      if !first_on && !second_on then .ok (.closed, [dbgLog "Updated state"])
      else if first_on && second_on then .ok (.open_, [dbgLog "Updated state"])
      else if !first_on && second_on then .ok (.tilted, [dbgLog "Updated state"])
      else
        .ok (.unknown, [warnLog "Invalid state combination", dbgLog "Updated state"])

/-- Full `_async_update_state`: the body under the outer
`except Exception` handler, which maps any escaped exception to
`self._state = None` plus an error log. -/
def updateState (mode : Mode) (base_state second_state : Option HAState) :
    DerivedState × List LogEntry :=
  match updateBody mode base_state second_state with
  | .ok r => r
  | .error _ => (.unknown, [errLog "Error updating"])

/-- The `ExtendedWindowStatus` entity, restricted to the fields the
derivation engine reads or writes: the configured mode and input entity
ids, the output `self._state` (symbolic; `None` is `unknown`), and
`self._remove_listeners` (subscription handles). -/
structure Engine where
  mode : Mode
  base_entity : String
  second_entity : String
  state : DerivedState
  remove_listeners : List Nat
  deriving DecidableEq

/-- `__init__`: the freshly constructed entity, `self._state = None` and
no listeners registered. -/
def Engine.init (mode : Mode) (base_entity second_entity : String) : Engine :=
  ⟨mode, base_entity, second_entity, .unknown, []⟩

/-- One recomputation: run `_async_update_state` on the two current
snapshots and store the result in `self._state`. -/
def Engine.recompute (e : Engine) (base_state second_state : Option HAState) : Engine :=
  { e with state := (updateState e.mode base_state second_state).1 }

/-- `_async_state_changed`: recompute, then call `async_write_ha_state`.
The boolean records whether the downstream write notification was issued;
the source issues it on every invocation, with no comparison against the
previous state. -/
def Engine.stateChanged (e : Engine) (base_state second_state : Option HAState) :
    Engine × Bool :=
  let e2 := e.recompute base_state second_state
  (e2, true)

/-- The host event source's subscription registry
(`async_track_state_change_event` bookkeeping): each live subscription
handle with the entity ids it watches. -/
structure Bus where
  subs : List (Nat × List String)
  deriving DecidableEq

/-- Registering a subscription for a list of entity ids under a fresh
handle; the handle is what the returned remover closes over. -/
def busSubscribe (bus : Bus) (id : Nat) (entities : List String) : Bus :=
  ⟨(id, entities) :: bus.subs⟩

/-- Calling the remover returned by `async_track_state_change_event`:
the subscription with that handle is deleted from the registry. -/
def busUnsubscribe (bus : Bus) (id : Nat) : Bus :=
  ⟨bus.subs.filter (fun p => p.1 != id)⟩

/-- `async_added_to_hass`: register one subscription covering both input
entities, then perform the initial update (no change event needed). -/
def Engine.addedToHass (e : Engine) (bus : Bus) (id : Nat)
    (base_state second_state : Option HAState) : Bus × Engine :=
  let bus2 := busSubscribe bus id [e.base_entity, e.second_entity]
  let e2 := { e with remove_listeners := e.remove_listeners ++ [id] }
  (bus2, e2.recompute base_state second_state)

/-- `async_will_remove_from_hass`: invoke every stored remover, then
clear `self._remove_listeners`. -/
def Engine.willRemoveFromHass (bus : Bus) (e : Engine) : Bus × Engine :=
  (e.remove_listeners.foldl busUnsubscribe bus, { e with remove_listeners := [] })

/-- Modelled from the spec: the host event source (section 6,
`subscribe`/`unsubscribe`; the dispatcher behind
`async_track_state_change_event` is not part of this repository's
sources). A change notification for an entity reaches the engine's
`_async_state_changed` handler only if the subscription handle it was
issued under is still present in the registry; a notification for a
removed (stale) handle is dropped. -/
def deliverEvent (bus : Bus) (e : Engine) (id : Nat) (entity : String)
    (base_state second_state : Option HAState) : Engine :=
  if bus.subs.any (fun p => p.1 == id && p.2.contains entity) then
    (e.stateChanged base_state second_state).1
  else e

/-- The registry holds some subscription under the handle `id`. -/
def busHas (bus : Bus) (id : Nat) : Bool :=
  bus.subs.any (fun p => p.1 == id)

theorem busHas_unsubscribe_self (bus : Bus) (id : Nat) :
    busHas (busUnsubscribe bus id) id = false := by
  simp only [busHas, busUnsubscribe, List.any_eq_false]
  intro p hp
  rcases List.mem_filter.mp hp with ⟨-, hne⟩
  simpa using hne

theorem busHas_unsubscribe_mono (bus : Bus) (i j : Nat)
    (h : busHas bus i = false) : busHas (busUnsubscribe bus j) i = false := by
  simp only [busHas, busUnsubscribe, List.any_eq_false] at h ⊢
  intro p hp
  exact h p (List.mem_filter.mp hp).1

theorem busHas_foldl_mono (L : List Nat) (bus : Bus) (id : Nat)
    (h : busHas bus id = false) : busHas (L.foldl busUnsubscribe bus) id = false := by
  induction L generalizing bus with
  | nil => simpa using h
  | cons y ys ih => exact ih _ (busHas_unsubscribe_mono bus id y h)

theorem busHas_foldl_unsubscribe (L : List Nat) (bus : Bus) (id : Nat)
    (h : id ∈ L) : busHas (L.foldl busUnsubscribe bus) id = false := by
  induction L generalizing bus with
  | nil => cases h
  | cons x xs ih =>
    rcases List.mem_cons.mp h with hx | hx
    · subst hx
      exact busHas_foldl_mono xs _ id (busHas_unsubscribe_self bus id)
    · exact ih (busUnsubscribe bus x) hx

theorem updateBody_isOk (mode : Mode) (a b : Option HAState) :
    ∃ r, updateBody mode a b = .ok r := by
  rcases a with _ | bs <;> rcases b with _ | ss <;>
    cases mode <;> unfold updateBody <;> try dsimp only
  all_goals repeat' split
  all_goals exact ⟨_, rfl⟩

theorem updateBody_logs_ne_nil (mode : Mode) (a b : Option HAState)
    (r : DerivedState × List LogEntry) (h : updateBody mode a b = .ok r) :
    r.2 ≠ [] := by
  unfold updateBody at h
  dsimp only at h
  repeat' split at h
  all_goals cases h
  all_goals simp [errLog, warnLog, dbgLog]

theorem updateState_logs_ne_nil (mode : Mode) (a b : Option HAState) :
    (updateState mode a b).2 ≠ [] := by
  obtain ⟨r, hr⟩ := updateBody_isOk mode a b
  have hl := updateBody_logs_ne_nil mode a b r hr
  simp [updateState, hr, hl]

theorem isZero_false_of_isPos (v : PyFloat) (h : v.isPos = true) :
    v.isZero = false := by
  cases v with
  | finite n e =>
    simp only [PyFloat.isPos, Bool.and_eq_true, decide_eq_true_eq] at h
    simp only [PyFloat.isZero, decide_eq_false_iff_not]
    exact Nat.not_le.mpr h.2
  | inf => rfl
  | negInf => simp [PyFloat.isPos] at h
  | nan => simp [PyFloat.isPos] at h

theorem isZero_false_of_isNeg (v : PyFloat) (h : v.isNeg = true) :
    v.isZero = false := by
  cases v with
  | finite n e =>
    simp only [PyFloat.isNeg, Bool.and_eq_true, decide_eq_true_eq] at h
    simp only [PyFloat.isZero, decide_eq_false_iff_not]
    exact Nat.not_le.mpr h.2
  | inf => simp [PyFloat.isNeg] at h
  | negInf => rfl
  | nan => simp [PyFloat.isNeg] at h

theorem isPos_false_of_isNeg (v : PyFloat) (h : v.isNeg = true) :
    v.isPos = false := by
  cases v with
  | finite n e =>
    simp only [PyFloat.isNeg, Bool.and_eq_true, decide_eq_true_eq] at h
    have hn : ¬ (0 < n) := by omega
    simp [PyFloat.isPos, hn]
  | inf => simp [PyFloat.isNeg] at h
  | negInf => rfl
  | nan => simp [PyFloat.isNeg] at h

/-- C1: in BinaryTilt mode, with both snapshots present, the output
follows the truth table over `a = (inputA.state == "on")` and
`b = (inputB.state == "on")`: false/false gives Closed, true/true Open,
false/true Tilted, and true/false Unknown with a warning logged. -/
theorem binaryTilt_truth_table (sa sb : String) :
    (updateState .binaryTilt (some ⟨sa⟩) (some ⟨sb⟩)).1 =
      (if sa == "on" then (if sb == "on" then .open_ else .unknown)
       else (if sb == "on" then .tilted else .closed)) ∧
    ((sa == "on") = true → (sb == "on") = false →
      ((updateState .binaryTilt (some ⟨sa⟩) (some ⟨sb⟩)).2.any
        fun l => l.level == LogLevel.warning) = true) := by
  constructor
  · cases h1 : sa == "on" <;> cases h2 : sb == "on" <;>
      simp [updateState, updateBody, h1, h2]
  · intro h1 h2
    simp [updateState, updateBody, h1, h2, warnLog]

/-- C1 witness: the invalid combination `("on", "off")` yields the
warning log entry. -/
theorem binaryTilt_truth_table_w :
    ((updateState .binaryTilt (some ⟨"on"⟩) (some ⟨"off"⟩)).2.any
      fun l => l.level == LogLevel.warning) = true :=
  (binaryTilt_truth_table "on" "off").2 (by decide) (by decide)

/-- C2: in RotaryTilt mode with both snapshots present, the base input
exactly `"on"` and the second input parsing as a number, a zero rotation
gives Open, a positive rotation gives Tilted, and a negative rotation
gives Unknown. -/
theorem rotaryTilt_rotation_table (sb : String) (v : PyFloat)
    (hv : pyFloat sb = some v) :
    (v.isZero = true →
      (updateState .rotaryTilt (some ⟨"on"⟩) (some ⟨sb⟩)).1 = .open_) ∧
    (v.isPos = true →
      (updateState .rotaryTilt (some ⟨"on"⟩) (some ⟨sb⟩)).1 = .tilted) ∧
    (v.isNeg = true →
      (updateState .rotaryTilt (some ⟨"on"⟩) (some ⟨sb⟩)).1 = .unknown) := by
  refine ⟨?_, ?_, ?_⟩ <;> intro h
  · simp [updateState, updateBody, hv, h]
  · simp [updateState, updateBody, hv, isZero_false_of_isPos v h, h]
  · simp [updateState, updateBody, hv, isZero_false_of_isNeg v h,
      isPos_false_of_isNeg v h]

/-- C2 witness: rotation `"0"` with the base input `"on"` yields Open. -/
theorem rotaryTilt_rotation_table_w :
    (updateState .rotaryTilt (some ⟨"on"⟩) (some ⟨"0"⟩)).1 = .open_ :=
  (rotaryTilt_rotation_table "0" (.finite 0 0) (by decide)).1
    (by simp [PyFloat.isZero])

/-- C3 counterexample: in RotaryTilt mode with the base input not `"on"`
and a non-numeric second input, the output is Unknown, not Closed: the
parse happens before the base check, so its failure wins. -/
theorem rotary_baseOff_nonNumeric_cex :
    ¬ (updateState .rotaryTilt (some ⟨"off"⟩) (some ⟨"not_a_number"⟩)).1
        = .closed := by
  decide

/-- C3 amended: in RotaryTilt mode with both snapshots present, the base
input not `"on"` and the second input parsing as a float, the output is
Closed regardless of the parsed rotation value. -/
theorem rotary_baseOff_closed (sa sb : String) (v : PyFloat)
    (ha : (sa == "on") = false) (hv : pyFloat sb = some v) :
    (updateState .rotaryTilt (some ⟨sa⟩) (some ⟨sb⟩)).1 = .closed := by
  simp [updateState, updateBody, ha, hv]

/-- C3 witness: base `"off"` with a negative rotation still yields
Closed. -/
theorem rotary_baseOff_closed_w :
    (updateState .rotaryTilt (some ⟨"off"⟩) (some ⟨"-12.5"⟩)).1 = .closed :=
  rotary_baseOff_closed "off" "-12.5" (.finite (-125) 1) (by decide) (by decide)

/-- C4: in RotaryTilt mode with both snapshots present but a second
input that does not parse as a float, the body completes normally (no
exception reaches the caller) with output Unknown and an error log,
regardless of the base input's value. -/
theorem rotary_parse_failure (sa sb : String) (h : pyFloat sb = none) :
    updateBody .rotaryTilt (some ⟨sa⟩) (some ⟨sb⟩)
        = .ok (.unknown, [errLog "Invalid rotation value"]) ∧
    updateState .rotaryTilt (some ⟨sa⟩) (some ⟨sb⟩)
        = (.unknown, [errLog "Invalid rotation value"]) := by
  refine ⟨?_, ?_⟩ <;> simp [updateState, updateBody, h]

/-- C4 witness: second input `"not_a_number"` yields Unknown with an
error log even though the base input is `"on"`. -/
theorem rotary_parse_failure_w :
    updateState .rotaryTilt (some ⟨"on"⟩) (some ⟨"not_a_number"⟩)
        = (.unknown, [errLog "Invalid rotation value"]) :=
  (rotary_parse_failure "on" "not_a_number" (by decide)).2

/-- C5: in either mode, if the snapshot of input A or of input B is
absent, the output is Unknown with an error log, and the mode's decision
table is not consulted (the result does not depend on the mode or on the
other snapshot). -/
theorem missing_input_unknown (mode : Mode) (a b : Option HAState) :
    updateState mode none b = (.unknown, [errLog "Missing state"]) ∧
    updateState mode a none = (.unknown, [errLog "Missing state"]) := by
  constructor
  · cases b <;> cases mode <;> rfl
  · cases a <;> cases mode <;> rfl

/-- C6: the recomputed output is a pure function of the mode and the two
snapshots — engines with the same mode but different prior derived state
recompute to the same state, and recomputing twice with unchanged inputs
is the same as recomputing once. -/
theorem recompute_pure_idempotent (e₁ e₂ : Engine) (a b : Option HAState)
    (h : e₁.mode = e₂.mode) :
    (e₁.recompute a b).state = (e₂.recompute a b).state ∧
    (e₁.recompute a b).recompute a b = e₁.recompute a b := by
  constructor
  · simp [Engine.recompute, h]
  · rfl

/-- C6 witness: two engines that differ only in their prior derived
state recompute to the same output. -/
theorem recompute_pure_idempotent_w :
    ((Engine.mk .binaryTilt "a" "b" .open_ []).recompute
        (some ⟨"off"⟩) (some ⟨"off"⟩)).state
      = ((Engine.mk .binaryTilt "a" "b" .closed []).recompute
        (some ⟨"off"⟩) (some ⟨"off"⟩)).state :=
  (recompute_pure_idempotent (Engine.mk .binaryTilt "a" "b" .open_ [])
    (Engine.mk .binaryTilt "a" "b" .closed [])
    (some ⟨"off"⟩) (some ⟨"off"⟩) rfl).1

/-- C7: for every mode and every pair of snapshots the update body
completes without an exception escaping to the caller (`Except.ok`), so
recompute always produces a DerivedState; and whenever the produced
state is Unknown, at least one diagnostic log entry was emitted. -/
theorem recompute_total_no_throw (mode : Mode) (a b : Option HAState) :
    updateBody mode a b = .ok (updateState mode a b) ∧
    ((updateState mode a b).1 = .unknown → (updateState mode a b).2 ≠ []) := by
  obtain ⟨r, hr⟩ := updateBody_isOk mode a b
  have hs : updateState mode a b = r := by simp [updateState, hr]
  exact ⟨by rw [hs, hr], fun _ => updateState_logs_ne_nil mode a b⟩

/-- C7 witness: with both snapshots missing, the output is Unknown and a
log entry was emitted. -/
theorem recompute_total_no_throw_w :
    (updateState .rotaryTilt none none).2 ≠ [] :=
  (recompute_total_no_throw .rotaryTilt none none).2 (by decide)

/-- C8: every change notification handled by `_async_state_changed`
performs a recomputation and then issues the downstream write
unconditionally — also when the recomputed state equals the previous
one. -/
theorem stateChanged_always_signals (e : Engine) (a b : Option HAState) :
    e.stateChanged a b = (e.recompute a b, true) ∧
    ((e.recompute a b).state = e.state → (e.stateChanged a b).2 = true) :=
  ⟨rfl, fun _ => rfl⟩

/-- C8 witness: an engine whose recomputation leaves the state unchanged
still issues the downstream write. -/
theorem stateChanged_always_signals_w :
    ((Engine.mk .binaryTilt "x" "y" .closed []).stateChanged
        (some ⟨"off"⟩) (some ⟨"off"⟩)).2 = true :=
  (stateChanged_always_signals (Engine.mk .binaryTilt "x" "y" .closed [])
    (some ⟨"off"⟩) (some ⟨"off"⟩)).2 (by decide)

/-- C9: `async_will_remove_from_hass` preserves the derived state (so it
is safe even if no recomputation ever occurred), clears the listener
list, and removes the subscriptions from the host registry effectively:
a late notification delivered under any handle the engine held is
dropped and leaves the engine — in particular its current state —
unchanged. -/
theorem stop_safe_and_effective (bus : Bus) (e : Engine) (a b : Option HAState)
    (id : Nat) (entity : String) (h : id ∈ e.remove_listeners) :
    (Engine.willRemoveFromHass bus e).2.state = e.state ∧
    (Engine.willRemoveFromHass bus e).2.remove_listeners = [] ∧
    deliverEvent (Engine.willRemoveFromHass bus e).1
        (Engine.willRemoveFromHass bus e).2 id entity a b
      = (Engine.willRemoveFromHass bus e).2 := by
  refine ⟨rfl, rfl, ?_⟩
  have hh := busHas_foldl_unsubscribe e.remove_listeners bus id h
  unfold busHas at hh
  rw [List.any_eq_false] at hh
  unfold deliverEvent
  rw [if_neg]
  intro hc
  rcases List.any_eq_true.mp hc with ⟨p, hp, hpc⟩
  simp only [Bool.and_eq_true] at hpc
  exact hh p hp hpc.1

/-- C9 witness: after removal, a late notification under the handle
registered at setup does not change the engine. -/
theorem stop_safe_and_effective_w :
    deliverEvent (Engine.willRemoveFromHass (Bus.mk [(0, ["e1", "e2"])])
        (Engine.mk .rotaryTilt "e1" "e2" .open_ [0])).1
      (Engine.willRemoveFromHass (Bus.mk [(0, ["e1", "e2"])])
        (Engine.mk .rotaryTilt "e1" "e2" .open_ [0])).2
      0 "e1" (some ⟨"on"⟩) (some ⟨"12"⟩)
    = (Engine.willRemoveFromHass (Bus.mk [(0, ["e1", "e2"])])
        (Engine.mk .rotaryTilt "e1" "e2" .open_ [0])).2 :=
  (stop_safe_and_effective (Bus.mk [(0, ["e1", "e2"])])
    (Engine.mk .rotaryTilt "e1" "e2" .open_ [0])
    (some ⟨"on"⟩) (some ⟨"12"⟩) 0 "e1" (by decide)).2.2

/-- C10: in either mode, a boolean-like snapshot state counts as "on"
only under case-sensitive exact string equality with `"on"`; any other
present state string (such as `"off"`, `"On"`, `"unavailable"`) is
treated as off and fed to the decision table, never mapped to Unknown by
itself — in BinaryTilt two present non-"on" snapshots yield Closed, and
in RotaryTilt a present non-"on" base with a parseable rotation yields
Closed. -/
theorem on_check_exact_equality (sa sb : String) (ha : (sa == "on") = false) :
    ((sb == "on") = false →
      (updateState .binaryTilt (some ⟨sa⟩) (some ⟨sb⟩)).1 = .closed) ∧
    (∀ v : PyFloat, pyFloat sb = some v →
      (updateState .rotaryTilt (some ⟨sa⟩) (some ⟨sb⟩)).1 = .closed) := by
  constructor
  · intro hb
    simp [updateState, updateBody, ha, hb]
  · intro v hv
    simp [updateState, updateBody, ha, hv]

/-- C10 witness: two `"unavailable"` snapshots in BinaryTilt mode yield
Closed, and in RotaryTilt mode the base `"On"` (wrong case) with
rotation `"0"` is treated as off and yields Closed. -/
theorem on_check_exact_equality_w :
    (updateState .binaryTilt (some ⟨"unavailable"⟩) (some ⟨"unavailable"⟩)).1
        = .closed ∧
    (updateState .rotaryTilt (some ⟨"On"⟩) (some ⟨"0"⟩)).1 = .closed :=
  ⟨(on_check_exact_equality "unavailable" "unavailable" (by decide)).1 (by decide),
   (on_check_exact_equality "On" "0" (by decide)).2 (.finite 0 0) (by decide)⟩

end ExtendedWindowStatus
